import Mathlib

/-!
Verification of the `liveplot` repository: a shallow embedding of the
plot-controller, worker-loop, render-manager and process-handle logic of
`src/liveplot/plot.py`, `src/liveplot/plotmanager.py` and
`src/liveplot/process.py`, with theorems settling the specification claims.

Conventions of the embedding:
* Python floats are modelled as rationals; a float that can be NaN
  (image cells, the color bounds `vmin`/`vmax`) is an `Option ℚ`,
  with `none` standing for NaN.  This captures the source exactly because
  the only float operations the modelled code performs are comparison,
  `np.nanmax`/`np.nanmin`, and the closed-form extent arithmetic.
* Calls into matplotlib that only repaint (manager `update`, `set_clim`,
  `line.set_data`) are modelled by the state they rebind on the controller
  side plus a repaint counter, since the claims speak about which data the
  drawable is rebound to and whether a repaint is triggered.
* Python exceptions are `Except String`.
-/

namespace Liveplot

/-! ## Trace controller (`LivePlotTrace`, plot.py lines 165-263)

State of an initialized trace plot: the two backing lists `xdata`/`ydata`,
the data the `Line2D` artist was last rebound to (`line.set_data`), and a
counter of how many times `update()` ran (each `update()` ends in a repaint
through the manager). -/
structure TraceState where
  xdata : List ℚ
  ydata : List ℚ
  lineXdata : List ℚ
  lineYdata : List ℚ
  updateCount : Nat
deriving DecidableEq

/-- `LivePlotTrace.add_point` (plot.py 235-245): append `x` and `y`,
rebind the line artist to the full lists, call `update()`. -/
def TraceState.add_point (s : TraceState) (x y : ℚ) : TraceState :=
  let xs := s.xdata ++ [x]
  let ys := s.ydata ++ [y]
  { xdata := xs, ydata := ys, lineXdata := xs, lineYdata := ys,
    updateCount := s.updateCount + 1 }

/-- `LivePlotTrace.set_data` (plot.py 247-257): overwrite both backing
lists with the arguments, rebind the line artist, call `update()`.
The source performs no length comparison between `xdata` and `ydata`:
the assignments are unconditional. -/
def TraceState.set_data (s : TraceState) (xdata ydata : List ℚ) : TraceState :=
  { xdata := xdata, ydata := ydata, lineXdata := xdata, lineYdata := ydata,
    updateCount := s.updateCount + 1 }

/-! ## Worker receive loop (`LivePlotBase.process`, plot.py 140-162)

The worker receives tuples `(function_name, *args)` and dispatches them with
`_call_method` (plot.py 118-138), which raises `AttributeError` when the
name is not an attribute of the plot object.  The commands the trace
protocol sends are `add_point`, `set_data` and `close`; `unknown n` stands
for any received name that is not an attribute of `LivePlotTrace`. -/
inductive TraceCmd where
  | addPoint (x y : ℚ)
  | setData (xdata ydata : List ℚ)
  | close
  | unknown (name : String)
deriving DecidableEq

/-- Worker-side state: the trace controller plus whether `plt.close(fig)`
has run (`LivePlotTrace.close`, plot.py 259-262). -/
structure WorkerState where
  trace : TraceState
  figClosed : Bool
deriving DecidableEq

/-- One dispatch through `LivePlotBase._call_method` (plot.py 118-138) on a
`LivePlotTrace`.  A known name calls the method; `close` only closes the
figure (it does not touch the loop or the pipe); an unknown name logs and
then raises `AttributeError`, which `_call_method` does not catch. -/
def dispatch (s : WorkerState) : TraceCmd → Except String WorkerState
  | TraceCmd.addPoint x y => Except.ok { s with trace := s.trace.add_point x y }
  | TraceCmd.setData xs ys => Except.ok { s with trace := s.trace.set_data xs ys }
  | TraceCmd.close => Except.ok { s with figClosed := true }
  | TraceCmd.unknown n =>
      Except.error ("AttributeError: LivePlot has no function " ++ n)

/-- How a run of the receive loop of `LivePlotBase.process` ends. -/
inductive LoopOutcome where
  | exitedLoop
  | blockedOnRecv
  | raised (msg : String)
deriving DecidableEq

/-- The receive loop of `LivePlotBase.process` (plot.py 154-162) run against
the finite queue of commands the caller has sent.  Each iteration first
tests `pipe.closed`; that flag reflects only the worker-side end of the
pipe, which no dispatched method ever closes, so the test is `False` on
every iteration and the `break` branch is unreachable.  When the queue is
exhausted the loop calls `pipe.recv()` again; the caller (`LivePlotProcess`)
never closes its own end either, so the call blocks.  An exception raised
by `_call_method` propagates out of the loop. -/
def processLoop (s : WorkerState) : List TraceCmd → LoopOutcome × WorkerState
  | [] => (LoopOutcome.blockedOnRecv, s)
  | c :: rest =>
      match dispatch s c with
      | Except.ok s2 => processLoop s2 rest
      | Except.error e => (LoopOutcome.raised e, s)

/-- An initialized, empty trace worker. -/
def w0 : WorkerState :=
  { trace := { xdata := [], ydata := [], lineXdata := [], lineYdata := [],
               updateCount := 0 },
    figClosed := false }

/-! ## Render-manager selection (plot.py 94-100 and 334-340) -/

/-- The two manager strategies of plotmanager.py: `BasicPlotManager`
(full redraw) and `BlitPlotManager`. -/
inductive ManagerKind where
  | basic
  | blit
deriving DecidableEq

/-- `LivePlotBase.init_plot` (plot.py 94-100): `BlitPlotManager` when
`self.xlim is not None and self.ylim is not None`, else
`BasicPlotManager`. -/
def chooseManager : Option (ℚ × ℚ) → Option (ℚ × ℚ) → ManagerKind
  | some _, some _ => ManagerKind.blit
  | _, _ => ManagerKind.basic

/-- `np.abs` on a scalar. -/
def npAbs (q : ℚ) : ℚ :=
  if q < 0 then -q else q

/-- The axis-limit computation of `LivePlotImage.__init__`
(plot.py 312-320) for one axis: default the limits to `(0, len)` when the
caller passed `None`, take the cell step `np.abs (hi - lo) / len`, and
expand each side by half a step. -/
def imageAxisLims (len : Nat) (lim : Option (ℚ × ℚ)) : ℚ × ℚ :=
  let l : ℚ × ℚ :=
    match lim with
    | some p => p
    | none => ((0 : ℚ), (len : ℚ))
  let step : ℚ := npAbs (l.2 - l.1) / (len : ℚ)
  (l.1 - step / 2, l.2 + step / 2)

/-- `LivePlotImage.init_plot` (plot.py 334-340): the base `init_plot` runs
first and picks a manager from the (always non-`None`) limits; the image
subclass then deletes that manager and installs a `BasicPlotManager`
unconditionally. -/
def imageInitManager (xlim ylim : ℚ × ℚ) : ManagerKind :=
  let _base := chooseManager (some xlim) (some ylim)
  ManagerKind.basic

/-! ## Blit manager (`BlitPlotManager`, plotmanager.py 83-153)

The fields a claim about the snapshot logic needs: an abstract rendering of
the canvas content (what `copy_from_bbox` would capture) and the cached
background `_bg`, which is `None` until the first capture. -/
structure BlitManager where
  canvasContent : Nat
  bg : Option Nat
deriving DecidableEq

/-- `BlitPlotManager.on_draw` (plotmanager.py 116-129) with `event = None`
(the canvas comparison is skipped): copy the canvas background into `_bg`
and draw the animated artists (a pure render call, no manager state). -/
def BlitManager.on_draw (m : BlitManager) : BlitManager :=
  { m with bg := some m.canvasContent }

/-- `BlitPlotManager.update` (plotmanager.py 138-153): when `_bg is None`
the manager synchronously calls `on_draw(None)` to capture the background;
otherwise it restores the cached background, redraws the animated artists
and blits — none of which changes `_bg`.  Either way it then flushes
events.  The function is total: no branch raises. -/
def BlitManager.update (m : BlitManager) : BlitManager :=
  match m.bg with
  | none => m.on_draw
  | some _ => m

/-! ## Image controller (`LivePlotImage`, plot.py 265-431)

Image cells are `Option ℚ` (`none` = NaN).  `np.nanmax` / `np.nanmin`
reduce over the non-NaN cells and give NaN when every cell is NaN. -/

/-- Accumulate the maximum, ignoring NaN (`none`). -/
def optMax : Option ℚ → Option ℚ → Option ℚ
  | none, b => b
  | some x, none => some x
  | some x, some y => some (max x y)

/-- Accumulate the minimum, ignoring NaN (`none`). -/
def optMin : Option ℚ → Option ℚ → Option ℚ
  | none, b => b
  | some x, none => some x
  | some x, some y => some (min x y)

/-- `np.nanmax` over a 2D grid: `none` exactly when every cell is NaN. -/
def nanmaxGrid (g : List (List (Option ℚ))) : Option ℚ :=
  List.foldl (fun acc row => List.foldl optMax acc row) none g

/-- `np.nanmin` over a 2D grid. -/
def nanminGrid (g : List (List (Option ℚ))) : Option ℚ :=
  List.foldl (fun acc row => List.foldl optMin acc row) none g

/-- The `vmax` step of `_relim_cbar` with `update_only=True`
(plot.py 366-367): `if np.isnan(self.vmax) or self.vmax < current_vmax:
self.vmax = current_vmax`.  A comparison against NaN is `False`. -/
def relimVmax (vmax cur : Option ℚ) : Option ℚ :=
  match vmax with
  | none => cur
  | some v =>
      match cur with
      | some c => if v < c then some c else some v
      | none => some v

/-- The `vmin` step of `_relim_cbar` with `update_only=True`
(plot.py 368-369). -/
def relimVmin (vmin cur : Option ℚ) : Option ℚ :=
  match vmin with
  | none => cur
  | some v =>
      match cur with
      | some c => if c < v then some c else some v
      | none => some v

/-- The `vmax` step of `LivePlotImage.update` (plot.py 388-389):
`if self.vmax is None or self.vmax < current_vmax`.  The stored `vmax` is a
float, never the Python `None`, so only the comparison matters, and a
comparison involving NaN is `False`. -/
def updVmax (vmax cur : Option ℚ) : Option ℚ :=
  match vmax, cur with
  | some v, some c => if v < c then some c else some v
  | _, _ => vmax

/-- The `vmin` step of `LivePlotImage.update` (plot.py 390-391). -/
def updVmin (vmin cur : Option ℚ) : Option ℚ :=
  match vmin, cur with
  | some v, some c => if c < v then some c else some v
  | _, _ => vmin

/-- State of an initialized image plot: the grid dimensions fixed at
construction, the backing grid `img_data` (row-major, indexed `[y][x]` like
the source's `img_data[y, x]`), the running color bounds, and a counter of
`update()` invocations (each ends in a repaint through the manager; the
image manager is always `BasicPlotManager`, see `imageInitManager`). -/
structure ImageState where
  xlen : Nat
  ylen : Nat
  imgData : List (List (Option ℚ))
  vmin : Option ℚ
  vmax : Option ℚ
  updateCount : Nat
deriving DecidableEq

/-- The grid has the shape `init_plot` gives it (plot.py 342):
`ylen` rows of `xlen` cells. -/
def ImageState.wf (s : ImageState) : Prop :=
  s.imgData.length = s.ylen ∧ ∀ row ∈ s.imgData, row.length = s.xlen

instance (s : ImageState) : Decidable s.wf := by
  unfold ImageState.wf
  infer_instance

/-- `LivePlotImage._relim_cbar` (plot.py 359-380) restricted to the stored
bounds: with `update_only=True` only widen them, otherwise recompute both
from the current data.  (The trailing `set_clim` call only forwards values
to the artist.) -/
def ImageState.relimCbar (s : ImageState) (updateOnly : Bool) : ImageState :=
  let curMax := nanmaxGrid s.imgData
  let curMin := nanminGrid s.imgData
  if updateOnly then
    { s with vmax := relimVmax s.vmax curMax, vmin := relimVmin s.vmin curMin }
  else
    { s with vmax := curMax, vmin := curMin }

/-- `LivePlotImage.update` (plot.py 382-399): widen the bounds against the
current data (with the `is None` guards that never fire), push them to the
artist, and repaint through the manager (`super().update()`). -/
def ImageState.update (s : ImageState) : ImageState :=
  let curMax := nanmaxGrid s.imgData
  let curMin := nanminGrid s.imgData
  { s with vmax := updVmax s.vmax curMax, vmin := updVmin s.vmin curMin,
           updateCount := s.updateCount + 1 }

/-- `LivePlotImage.set_data` (plot.py 401-414): copy the new grid in,
rebind the artist, run `_relim_cbar(update_only=not relim_cbar)`, then
`update()`. -/
def ImageState.set_data (s : ImageState) (data : List (List (Option ℚ)))
    (relim_cbar : Bool) : ImageState :=
  (({ s with imgData := data } : ImageState).relimCbar (!relim_cbar)).update

/-- Numpy integer-index resolution for an axis of length `n`: a negative
index counts from the end; an index outside `[-n, n)` is an `IndexError`. -/
def npIndex (n : Nat) (i : Int) : Option Nat :=
  let j : Int := if i < 0 then i + (n : Int) else i
  if 0 ≤ j ∧ j < (n : Int) then some j.toNat else none

/-- Write one cell of the grid (the assignment `img_data[y, x] = z`). -/
def setCell (g : List (List (Option ℚ))) (yi xi : Nat) (z : Option ℚ) :
    List (List (Option ℚ)) :=
  g.set yi ((g.getD yi []).set xi z)

/-- Read one cell of the grid. -/
def getCell (g : List (List (Option ℚ))) (yi xi : Nat) : Option ℚ :=
  (g.getD yi []).getD xi none

/-- `LivePlotImage.add_point` (plot.py 416-431): resolve `img_data[y, x]`
with numpy index semantics (raising `IndexError` before anything is
mutated when either index is out of range), write the single cell, rebind
the artist, and run `_relim_cbar(update_only=not relim_cbar)`.  The method
ends there: unlike `set_data` it never calls `update()`. -/
def ImageState.add_point (s : ImageState) (y x : Int) (z : Option ℚ)
    (relim_cbar : Bool) : Except String ImageState :=
  match npIndex s.ylen y, npIndex s.xlen x with
  | some yi, some xi =>
      Except.ok (({ s with imgData := setCell s.imgData yi xi z }
        : ImageState).relimCbar (!relim_cbar))
  | _, _ => Except.error "IndexError"

/-- One data-mutation command against an image controller. -/
inductive ImgCall where
  | setData (data : List (List (Option ℚ))) (relim_cbar : Bool)
  | addPoint (y x : Int) (z : Option ℚ) (relim_cbar : Bool)
deriving DecidableEq

/-- The `relim_cbar` flag of a call. -/
def ImgCall.relim : ImgCall → Bool
  | ImgCall.setData _ r => r
  | ImgCall.addPoint _ _ _ r => r

/-- Run one call; `add_point` can raise. -/
def runCall (s : ImageState) : ImgCall → Except String ImageState
  | ImgCall.setData d r => Except.ok (s.set_data d r)
  | ImgCall.addPoint y x z r => s.add_point y x z r

/-- Run one call, keeping the prior state when it raises (the raise of
`add_point` happens before any mutation). -/
def runCall1 (s : ImageState) (c : ImgCall) : ImageState :=
  match runCall s c with
  | Except.ok s2 => s2
  | Except.error _ => s

/-- Run a finite sequence of calls. -/
def runCalls (s : ImageState) : List ImgCall → ImageState
  | [] => s
  | c :: cs => runCalls (runCall1 s c) cs

/-- `vmaxMono a b`: going from stored bound `a` to stored bound `b`, the
upper color bound never shrank — an unset (NaN) bound may become anything,
a set bound may only grow and never becomes unset. -/
def vmaxMono : Option ℚ → Option ℚ → Prop
  | none, _ => True
  | some v, some w => v ≤ w
  | some _, none => False

/-- `vminMono a b`: the lower color bound never grew. -/
def vminMono : Option ℚ → Option ℚ → Prop
  | none, _ => True
  | some v, some w => w ≤ v
  | some _, none => False

/-! ## Process handle (`LivePlotProcess.__getattr__`, process.py 61-68) -/

/-- What an attribute access resolved through `LivePlotProcess.__getattr__`
evaluates to. -/
inductive HandleAttr where
  | stored
  | forwarder (name : String)
deriving DecidableEq

/-- `LivePlotProcess.__getattr__` (process.py 61-68): the Python runtime
calls it for a name the normal lookup did not find; the method itself
re-checks `self.__dict__` and otherwise returns
`lambda *args: self.pipe.send((name, *args))` — no test that `name` is a
method of the plot. -/
def handleGetattr (instDict : List String) (name : String) : HandleAttr :=
  if name ∈ instDict then HandleAttr.stored else HandleAttr.forwarder name

/-- Invoking the returned lambda with `args`: one tuple `(name, *args)` is
sent through the command pipe (appended to the FIFO of sent messages) and
the call evaluates to the result of `Connection.send`, which is `None`. -/
def invokeForwarder (name : String) (args : List ℚ)
    (sent : List (String × List ℚ)) : List (String × List ℚ) × Option Unit :=
  (sent ++ [(name, args)], none)

/-- The keys of a `LivePlotProcess` instance dictionary after `__init__`
(process.py 32-38): the plot, the caller-side pipe end and the process. -/
def handleInstDict : List String := ["plot", "pipe", "_process"]

/-! ## Concrete states for counterexamples and witnesses -/

/-- A trace controller holding the single point `(0, 0)`. -/
def t0 : TraceState :=
  { xdata := [0], ydata := [0], lineXdata := [0], lineYdata := [0],
    updateCount := 0 }

/-- A freshly initialized 1-by-1 image controller (all cells NaN, bounds
NaN, no repaint yet), as `init_plot` leaves it. -/
def imgEx : ImageState :=
  { xlen := 1, ylen := 1, imgData := [[none]], vmin := none, vmax := none,
    updateCount := 0 }

/-- The state `imgEx.add_point 0 0 1` should leave behind: cell written,
bounds widened, repaint counter untouched. -/
def imgEx1 : ImageState :=
  { imgEx with imgData := [[some 1]], vmin := some 1, vmax := some 1 }

/-- A freshly initialized 2-by-2 image controller. -/
def imgGrid2 : ImageState :=
  { xlen := 2, ylen := 2, imgData := [[none, none], [none, none]],
    vmin := none, vmax := none, updateCount := 0 }

/-! ## Helper lemmas -/

theorem getD_set_self {α : Type} (l : List α) (i : Nat) (a d : α)
    (h : i < l.length) : (l.set i a).getD i d = a := by
  induction l generalizing i with
  | nil => simp at h
  | cons hd tl ih =>
    cases i with
    | zero => rfl
    | succ n => exact ih n (by simpa using h)

theorem getD_set_ne {α : Type} (l : List α) (i j : Nat) (a d : α)
    (h : i ≠ j) : (l.set i a).getD j d = l.getD j d := by
  induction l generalizing i j with
  | nil => simp [List.set]
  | cons hd tl ih =>
    cases i with
    | zero =>
      cases j with
      | zero => exact absurd rfl h
      | succ m => rfl
    | succ n =>
      cases j with
      | zero => rfl
      | succ m => exact ih n m fun hnm => h (by simpa using hnm)

theorem getD_mem {α : Type} (l : List α) (i : Nat) (d : α)
    (h : i < l.length) : l.getD i d ∈ l := by
  induction l generalizing i with
  | nil => simp at h
  | cons hd tl ih =>
    cases i with
    | zero => exact List.mem_cons_self hd tl
    | succ n => exact List.mem_cons_of_mem hd (ih n (by simpa using h))

theorem npIndex_lt {n : Nat} {i : Int} {j : Nat}
    (h : npIndex n i = some j) : j < n := by
  unfold npIndex at h
  by_cases hc : 0 ≤ (if i < 0 then i + (n : Int) else i) ∧
      (if i < 0 then i + (n : Int) else i) < (n : Int)
  · rw [if_pos hc] at h
    have hj := Option.some.inj h
    omega
  · rw [if_neg hc] at h
    exact absurd h (by simp)

/-- The cell write of `add_point` touches exactly the addressed cell. -/
theorem getCell_setCell (g : List (List (Option ℚ))) (yi xi i j : Nat)
    (z : Option ℚ) (hy : yi < g.length) (hx : xi < (g.getD yi []).length) :
    getCell (setCell g yi xi z) i j =
      if i = yi ∧ j = xi then z else getCell g i j := by
  unfold getCell setCell
  by_cases hi : i = yi
  · subst hi
    rw [getD_set_self g i _ [] hy]
    by_cases hj : j = xi
    · subst hj
      rw [getD_set_self _ j z none hx]
      simp
    · rw [getD_set_ne _ xi j z none fun hxj => hj hxj.symm]
      simp [hj]
  · rw [getD_set_ne g yi i _ [] fun hyi => hi hyi.symm]
    simp [hi]

/-- `_relim_cbar` only touches the stored bounds, never the grid. -/
theorem relimCbar_imgData (s : ImageState) (b : Bool) :
    (s.relimCbar b).imgData = s.imgData := by
  unfold ImageState.relimCbar
  cases b <;> rfl

theorem vmaxMono_refl (a : Option ℚ) : vmaxMono a a := by
  cases a with
  | none => trivial
  | some v => exact le_refl v

theorem vminMono_refl (a : Option ℚ) : vminMono a a := by
  cases a with
  | none => trivial
  | some v => exact le_refl v

theorem vmaxMono_trans {a b c : Option ℚ} (h1 : vmaxMono a b)
    (h2 : vmaxMono b c) : vmaxMono a c := by
  cases a with
  | none => trivial
  | some v =>
    cases b with
    | none => exact absurd h1 id
    | some w =>
      cases c with
      | none => exact absurd h2 id
      | some u => exact le_trans h1 h2

theorem vminMono_trans {a b c : Option ℚ} (h1 : vminMono a b)
    (h2 : vminMono b c) : vminMono a c := by
  cases a with
  | none => trivial
  | some v =>
    cases b with
    | none => exact absurd h1 id
    | some w =>
      cases c with
      | none => exact absurd h2 id
      | some u => exact le_trans h2 h1

/-- The widen-only `vmax` step never shrinks a set bound. -/
theorem vmaxMono_relimVmax (a c : Option ℚ) : vmaxMono a (relimVmax a c) := by
  cases a with
  | none => trivial
  | some v =>
    cases c with
    | none => exact le_refl v
    | some w =>
      by_cases hvw : v < w
      · simp [relimVmax, hvw, vmaxMono, le_of_lt hvw]
      · simp [relimVmax, hvw, vmaxMono]

theorem vminMono_relimVmin (a c : Option ℚ) : vminMono a (relimVmin a c) := by
  cases a with
  | none => trivial
  | some v =>
    cases c with
    | none => exact le_refl v
    | some w =>
      by_cases hwv : w < v
      · simp [relimVmin, hwv, vminMono, le_of_lt hwv]
      · simp [relimVmin, hwv, vminMono]

/-- The `update()` `vmax` step never shrinks a set bound. -/
theorem vmaxMono_updVmax (a c : Option ℚ) : vmaxMono a (updVmax a c) := by
  cases a with
  | none =>
    cases c with
    | none => trivial
    | some w => trivial
  | some v =>
    cases c with
    | none => exact le_refl v
    | some w =>
      by_cases hvw : v < w
      · simp [updVmax, hvw, vmaxMono, le_of_lt hvw]
      · simp [updVmax, hvw, vmaxMono]

theorem vminMono_updVmin (a c : Option ℚ) : vminMono a (updVmin a c) := by
  cases a with
  | none =>
    cases c with
    | none => trivial
    | some w => trivial
  | some v =>
    cases c with
    | none => exact le_refl v
    | some w =>
      by_cases hwv : w < v
      · simp [updVmin, hwv, vminMono, le_of_lt hwv]
      · simp [updVmin, hwv, vminMono]

theorem updVmax_self (a : Option ℚ) : updVmax a a = a := by
  cases a with
  | none => rfl
  | some v => simp [updVmax, lt_irrefl]

theorem updVmin_self (a : Option ℚ) : updVmin a a = a := by
  cases a with
  | none => rfl
  | some v => simp [updVmin, lt_irrefl]

/-- One default-mode call (either operation, `relim_cbar=False`) never
shrinks the stored color bounds. -/
theorem vbounds_mono_step (s : ImageState) (c : ImgCall)
    (h : c.relim = false) :
    vmaxMono s.vmax (runCall1 s c).vmax ∧
    vminMono s.vmin (runCall1 s c).vmin := by
  cases c with
  | setData d r =>
    have hr : r = false := h
    subst hr
    refine ⟨?_, ?_⟩
    · exact vmaxMono_trans (vmaxMono_relimVmax _ _) (vmaxMono_updVmax _ _)
    · exact vminMono_trans (vminMono_relimVmin _ _) (vminMono_updVmin _ _)
  | addPoint y x z r =>
    have hr : r = false := h
    subst hr
    simp only [runCall1, runCall, ImageState.add_point]
    cases hy : npIndex s.ylen y with
    | none => exact ⟨vmaxMono_refl _, vminMono_refl _⟩
    | some yi =>
      cases hx : npIndex s.xlen x with
      | none => exact ⟨vmaxMono_refl _, vminMono_refl _⟩
      | some xi =>
        exact ⟨vmaxMono_relimVmax _ _, vminMono_relimVmin _ _⟩

/-- Default-mode monotonicity over a whole sequence of calls. -/
theorem vbounds_mono_all (cs : List ImgCall) (s : ImageState)
    (h : ∀ c ∈ cs, c.relim = false) :
    vmaxMono s.vmax (runCalls s cs).vmax ∧
    vminMono s.vmin (runCalls s cs).vmin := by
  induction cs generalizing s with
  | nil => exact ⟨vmaxMono_refl _, vminMono_refl _⟩
  | cons c rest ih =>
    have hc : c.relim = false := h c (List.mem_cons_self c rest)
    have hrest : ∀ x ∈ rest, x.relim = false :=
      fun x hx => h x (List.mem_cons_of_mem c hx)
    have h1 := vbounds_mono_step s c hc
    have h2 := ih (runCall1 s c) hrest
    exact ⟨vmaxMono_trans h1.1 h2.1, vminMono_trans h1.2 h2.2⟩

/-- A successful `relim_cbar=True` call leaves the stored bounds exactly at
the extrema of the data it installed. -/
theorem vbounds_relim_exact (s s2 : ImageState) (c : ImgCall)
    (h : c.relim = true) (hok : runCall s c = Except.ok s2) :
    s2.vmax = nanmaxGrid s2.imgData ∧ s2.vmin = nanminGrid s2.imgData := by
  cases c with
  | setData d r =>
    have hr : r = true := h
    subst hr
    have hs2 : s2 = s.set_data d true := (Except.ok.inj hok).symm
    subst hs2
    constructor
    · show updVmax (nanmaxGrid d) (nanmaxGrid d) = nanmaxGrid d
      exact updVmax_self _
    · show updVmin (nanminGrid d) (nanminGrid d) = nanminGrid d
      exact updVmin_self _
  | addPoint y x z r =>
    have hr : r = true := h
    subst hr
    simp only [runCall, ImageState.add_point] at hok
    cases hy : npIndex s.ylen y with
    | none => rw [hy] at hok; exact absurd hok (by simp)
    | some yi =>
      cases hx : npIndex s.xlen x with
      | none => rw [hy, hx] at hok; exact absurd hok (by simp)
      | some xi =>
        rw [hy, hx] at hok
        have hs2 := Except.ok.inj hok
        subst hs2
        exact ⟨rfl, rfl⟩

/-! ## The claims -/

/-- C1: refuted on the code — the worker receive loop of
`LivePlotBase.process` never exits.  Dispatching the `close` command only
closes the figure; the loop then re-tests the worker-side `pipe.closed`
flag, which is still `False`, and blocks in `pipe.recv()`.  Concretely,
after the caller sends exactly the `Close` command the loop is blocked on
`recv` with the figure closed (so `LivePlotProcess.close` exhausts its
5-second join and must force-terminate); and no command sequence whatsoever
makes the loop take its `break` branch: every run ends blocked on `recv` or
in a propagated exception. -/
theorem process_close_never_exits_loop :
    processLoop w0 [TraceCmd.close] =
      (LoopOutcome.blockedOnRecv, { w0 with figClosed := true }) ∧
    ∀ (s : WorkerState) (cs : List TraceCmd),
      (processLoop s cs).1 = LoopOutcome.blockedOnRecv ∨
      ∃ msg, (processLoop s cs).1 = LoopOutcome.raised msg := by
  refine ⟨rfl, ?_⟩
  intro s cs
  induction cs generalizing s with
  | nil => exact Or.inl rfl
  | cons c rest ih =>
    cases c with
    | addPoint x y => exact ih _
    | setData xs ys => exact ih _
    | close => exact ih _
    | unknown n => exact Or.inr ⟨_, rfl⟩

/-- C2, counterexample: `set_data` with mismatched lengths does not fail
and does not leave the prior data unchanged.  On a trace holding
`xdata = ydata = [0]`, calling `set_data [1, 2] [3]` (lengths 2 and 1)
returns normally and overwrites both stored lists. -/
theorem trace_set_data_mismatch_cex :
    (t0.set_data [1, 2] [3]).xdata = [1, 2] ∧
    (t0.set_data [1, 2] [3]).ydata = [3] ∧
    t0.xdata = [0] ∧ t0.ydata = [0] ∧
    ([1, 2] : List ℚ).length ≠ ([3] : List ℚ).length :=
  ⟨rfl, rfl, rfl, rfl, by decide⟩

/-- C2, amended: `LivePlotTrace.set_data` performs no length validation at
all.  For every prior state and every pair of lists — matching lengths or
not — it unconditionally replaces the stored `xdata` and `ydata`, rebinds
the artist to them and triggers one `update()`; no InvalidInput error
exists in the controller. -/
theorem trace_set_data_unconditional (s : TraceState)
    (xdata ydata : List ℚ) :
    s.set_data xdata ydata =
      { xdata := xdata, ydata := ydata, lineXdata := xdata,
        lineYdata := ydata, updateCount := s.updateCount + 1 } := rfl

/-- C3, counterexample: an unrecognized command name does abort the loop.
With the queue `[unknown "draw_now", addPoint 1 2]`, the run ends in the
propagated `AttributeError` and the following `addPoint` command is never
processed (the state is still the initial one). -/
theorem unknown_cmd_aborts_cex :
    processLoop w0 [TraceCmd.unknown "draw_now", TraceCmd.addPoint 1 2] =
      (LoopOutcome.raised "AttributeError: LivePlot has no function draw_now",
        w0) := rfl

/-- C3, amended: `_call_method` logs an unrecognized command name and then
raises `AttributeError`; the receive loop has no handler around the
dispatch, so the exception propagates and aborts the loop with the state
unchanged — the remaining commands are dropped with it. -/
theorem unknown_cmd_raises (s : WorkerState) (n : String)
    (rest : List TraceCmd) :
    processLoop s (TraceCmd.unknown n :: rest) =
      (LoopOutcome.raised ("AttributeError: LivePlot has no function " ++ n),
        s) := rfl

/-- C4: in default mode (`relim_cbar=False`) the stored color bounds are
monotone across any finite sequence of `set_data`/`add_point` calls —
`vmax` never decreases and `vmin` never increases — and any call that
completes with `relim_cbar=True` leaves `(vmin, vmax)` exactly at the
`(nanmin, nanmax)` of the image data it installed. -/
theorem image_cbar_bounds :
    (∀ (s : ImageState) (cs : List ImgCall),
        (∀ c ∈ cs, c.relim = false) →
        vmaxMono s.vmax (runCalls s cs).vmax ∧
        vminMono s.vmin (runCalls s cs).vmin) ∧
    (∀ (s s2 : ImageState) (c : ImgCall),
        c.relim = true → runCall s c = Except.ok s2 →
        s2.vmax = nanmaxGrid s2.imgData ∧
        s2.vmin = nanminGrid s2.imgData) :=
  ⟨fun s cs h => vbounds_mono_all cs s h,
   fun s s2 c h hok => vbounds_relim_exact s s2 c h hok⟩

/-- C4, witness: both parts at concrete inputs — one default-mode
`add_point` on the fresh 1-by-1 image, and one `set_data` with
`relim_cbar=True`. -/
theorem image_cbar_bounds_witness :
    (vmaxMono imgEx.vmax
        (runCalls imgEx [ImgCall.addPoint 0 0 (some 3) false]).vmax ∧
      vminMono imgEx.vmin
        (runCalls imgEx [ImgCall.addPoint 0 0 (some 3) false]).vmin) ∧
    ((imgEx.set_data [[some 5]] true).vmax =
        nanmaxGrid (imgEx.set_data [[some 5]] true).imgData ∧
      (imgEx.set_data [[some 5]] true).vmin =
        nanminGrid (imgEx.set_data [[some 5]] true).imgData) := by
  constructor
  · exact image_cbar_bounds.1 imgEx [ImgCall.addPoint 0 0 (some 3) false]
      (by decide)
  · exact image_cbar_bounds.2 imgEx (imgEx.set_data [[some 5]] true)
      (ImgCall.setData [[some 5]] true) rfl rfl

/-- C5, counterexample: the image controller always has both axis bounds
fixed (its constructor computes them and hands them to the base as
non-`None`), the base rule would therefore pick the Blit manager — yet
`LivePlotImage.init_plot` discards that manager and installs the
Full-Redraw (`Basic`) one, so "Blit exactly when both bounds are fixed"
fails on every image controller; here the 1-by-1 one with default
bounds. -/
theorem image_manager_basic_cex :
    imageInitManager (imageAxisLims 1 none) (imageAxisLims 1 none) =
      ManagerKind.basic ∧
    chooseManager (some (imageAxisLims 1 none))
        (some (imageAxisLims 1 none)) = ManagerKind.blit :=
  ⟨rfl, rfl⟩

/-- C5, amended: the base rule of `LivePlotBase.init_plot` selects the Blit
manager exactly when both axis bounds are set (non-`None`) and the
Full-Redraw one otherwise; the image controller overrides the result and
always ends up with the Full-Redraw manager, its always-fixed bounds
notwithstanding. -/
theorem manager_selection_amended :
    (∀ xlim ylim : Option (ℚ × ℚ),
        chooseManager xlim ylim = ManagerKind.blit ↔
          xlim.isSome = true ∧ ylim.isSome = true) ∧
    (∀ xlim ylim : ℚ × ℚ, imageInitManager xlim ylim = ManagerKind.basic) := by
  constructor
  · intro xl yl
    cases xl <;> cases yl <;> simp [chooseManager]
  · intro xl yl
    rfl

/-- C6, counterexample: `add_point` accepts indices outside
`[0, ylen) x [0, xlen)`.  On the fresh 2-by-2 image, `add_point (-1) 0 5`
— whose row index is not in `[0, 2)` — is not a reported error: it
succeeds and writes the cell `(1, 0)` (numpy wraps negative indices). -/
theorem image_add_point_negative_wrap_cex :
    ∃ s2, imgGrid2.add_point (-1) 0 (some 5) false = Except.ok s2 ∧
      getCell s2.imgData 1 0 = some 5 ∧
      getCell imgGrid2.imgData 1 0 = none := by
  refine ⟨_, rfl, ?_, rfl⟩
  decide

/-- C6, amended: the single-cell write is bounds-checked with numpy index
semantics against the grid dimensions.  An index pair that resolves
(each component within `[-len, len)`, negative components counting from the
end) writes exactly the resolved cell and nothing else; an index pair that
does not resolve raises `IndexError` before anything is mutated, so the
state is unchanged. -/
theorem image_add_point_bounds (s : ImageState) (y x : Int) (z : Option ℚ)
    (r : Bool) (hwf : s.wf) :
    (∀ yi xi, npIndex s.ylen y = some yi → npIndex s.xlen x = some xi →
        ∃ s2, s.add_point y x z r = Except.ok s2 ∧
          ∀ i j, getCell s2.imgData i j =
            if i = yi ∧ j = xi then z else getCell s.imgData i j) ∧
    ((npIndex s.ylen y = none ∨ npIndex s.xlen x = none) →
        s.add_point y x z r = Except.error "IndexError" ∧
        runCall1 s (ImgCall.addPoint y x z r) = s) := by
  constructor
  · intro yi xi hy hx
    have heq : s.add_point y x z r =
        Except.ok (({ s with imgData := setCell s.imgData yi xi z }
          : ImageState).relimCbar (!r)) := by
      unfold ImageState.add_point
      rw [hy, hx]
    refine ⟨_, heq, ?_⟩
    intro i j
    have hylt : yi < s.imgData.length := hwf.1 ▸ npIndex_lt hy
    have hxlt : xi < (s.imgData.getD yi []).length := by
      have hmem := getD_mem s.imgData yi [] hylt
      rw [hwf.2 _ hmem]
      exact npIndex_lt hx
    rw [relimCbar_imgData]
    exact getCell_setCell s.imgData yi xi i j z hylt hxlt
  · intro hbad
    have herr : s.add_point y x z r = Except.error "IndexError" := by
      unfold ImageState.add_point
      cases hy : npIndex s.ylen y with
      | none => rfl
      | some yi =>
        cases hx : npIndex s.xlen x with
        | none => rfl
        | some xi =>
          rw [hy, hx] at hbad
          rcases hbad with hbad | hbad <;> exact absurd hbad (by simp)
    refine ⟨herr, ?_⟩
    simp [runCall1, runCall, herr]

/-- C6, witness for the amended theorem: the in-range write `(0, 1)` on the
fresh 2-by-2 image. -/
theorem image_add_point_bounds_witness :
    ∃ s2, imgGrid2.add_point 0 1 (some 3) false = Except.ok s2 ∧
      ∀ i j, getCell s2.imgData i j =
        if i = 0 ∧ j = 1 then some 3 else getCell imgGrid2.imgData i j :=
  (image_add_point_bounds imgGrid2 0 1 (some 3) false (by decide)).1 0 1
    (by decide) (by decide)

/-- C7: the claim is right and the code is not — `LivePlotImage.add_point`
mutates the grid and the color bounds but never invokes `update()`, so no
repaint goes through the Render Manager, while the three sibling
operations (image `set_data`, trace `add_point`, trace `set_data`) each
trigger exactly one.  Evaluated at the failing input: on the fresh 1-by-1
image, `add_point 0 0 1` returns a state whose repaint counter is still
zero. -/
theorem image_add_point_missing_update :
    imgEx.add_point 0 0 (some 1) false = Except.ok imgEx1 ∧
    imgEx1.updateCount = 0 ∧
    (imgEx.set_data [[some 1]] false).updateCount = 1 ∧
    (t0.add_point 1 2).updateCount = 1 ∧
    (t0.set_data [1] [2]).updateCount = 1 :=
  ⟨rfl, rfl, rfl, rfl, rfl⟩

/-- C8: if `BlitPlotManager.update` runs while no background snapshot was
ever captured (`_bg is None`), it does not crash (the function is total):
it synchronously performs the capture via `on_draw(None)`, and afterwards
the cached snapshot is present — the canvas content just captured. -/
theorem blit_update_self_heals (m : BlitManager) (h : m.bg = none) :
    (BlitManager.update m).bg = some m.canvasContent := by
  unfold BlitManager.update
  rw [h]
  exact rfl

/-- C8, witness: a manager with canvas content 7 and no snapshot. -/
theorem blit_update_self_heals_witness :
    (BlitManager.update { canvasContent := 7, bg := none }).bg = some 7 :=
  blit_update_self_heals { canvasContent := 7, bg := none } rfl

/-- C9: the stored axis extents of an image controller are the caller's
logical bounds (defaulting to `(0, len)`) expanded by half a grid-cell
step on each side, with step `np.abs (hi - lo) / len` — stated for both
axes and for the default bounds. -/
theorem image_extents_formula (xlen ylen : Nat) (a b c d : ℚ)
    (hx : xlen ≠ 0) (hy : ylen ≠ 0) :
    imageAxisLims xlen (some (a, b)) =
      (a - npAbs (b - a) / (xlen : ℚ) / 2,
        b + npAbs (b - a) / (xlen : ℚ) / 2) ∧
    imageAxisLims ylen (some (c, d)) =
      (c - npAbs (d - c) / (ylen : ℚ) / 2,
        d + npAbs (d - c) / (ylen : ℚ) / 2) ∧
    imageAxisLims xlen none = (0 - 1 / 2, (xlen : ℚ) + 1 / 2) ∧
    imageAxisLims ylen none = (0 - 1 / 2, (ylen : ℚ) + 1 / 2) := by
  have habs : ∀ n : Nat, n ≠ 0 →
      npAbs ((n : ℚ) - 0) / (n : ℚ) = 1 := by
    intro n hn
    have hpos : ¬((n : ℚ) - 0 < 0) := by
      rw [sub_zero]
      exact not_lt.mpr (Nat.cast_nonneg n)
    rw [npAbs, if_neg hpos, sub_zero]
    exact div_self (Nat.cast_ne_zero.mpr hn)
  refine ⟨rfl, rfl, ?_, ?_⟩
  · show ((0 : ℚ) - npAbs ((xlen : ℚ) - 0) / (xlen : ℚ) / 2,
        (xlen : ℚ) + npAbs ((xlen : ℚ) - 0) / (xlen : ℚ) / 2) = _
    rw [habs xlen hx]
  · show ((0 : ℚ) - npAbs ((ylen : ℚ) - 0) / (ylen : ℚ) / 2,
        (ylen : ℚ) + npAbs ((ylen : ℚ) - 0) / (ylen : ℚ) / 2) = _
    rw [habs ylen hy]

/-- C9, witness: grids of width 2 and height 3 with default bounds. -/
theorem image_extents_formula_witness :
    imageAxisLims 2 none = (0 - 1 / 2, ((2 : Nat) : ℚ) + 1 / 2) ∧
    imageAxisLims 3 none = (0 - 1 / 2, ((3 : Nat) : ℚ) + 1 / 2) :=
  (image_extents_formula 2 3 0 1 0 1 (by decide) (by decide)).2.2

/-- C10: for a name not stored in the handle's instance dictionary,
`LivePlotProcess.__getattr__` yields the generic forwarder — a callable
that, for any argument list, sends the tuple `(name, *args)` through the
command pipe and returns `None`.  No validation of the name happens on the
caller side: the access and the send succeed for every such name, however
misspelled. -/
theorem handle_getattr_forwards (name : String) (args : List ℚ)
    (sent : List (String × List ℚ)) (h : name ∉ handleInstDict) :
    handleGetattr handleInstDict name = HandleAttr.forwarder name ∧
    invokeForwarder name args sent = (sent ++ [(name, args)], none) :=
  ⟨by rw [handleGetattr, if_neg h], rfl⟩

/-- C10, witness: the misspelled method name `add_pint`. -/
theorem handle_getattr_forwards_witness :
    handleGetattr handleInstDict "add_pint" =
      HandleAttr.forwarder "add_pint" ∧
    invokeForwarder "add_pint" [1, 2] [] =
      ([("add_pint", [1, 2])], none) :=
  handle_getattr_forwards "add_pint" [1, 2] [] (by decide)

end Liveplot
